import Mathlib

/-!
Verification of the e-commerce backend (`main.py`, `schemas.py`).

The embedding models Python's numeric values by exact rationals and
Python's `round(x, 2)` by round-half-to-even at two decimal places.
Database state is explicit: the `product` collection is a list of
products (paired with their store identifiers where the handler looks
one up) and the `order` collection a list of stored orders; a database
that is not configured is `none`.  HTTP failures are `Except.error`
carrying the status code.
-/

set_option maxRecDepth 2000

namespace Backend

/-- Python's `round(x, 2)` on the integer scale: round a rational to the
nearest integer, ties to the even integer (banker's rounding).  The
fractional part `q - ⌊q⌋ = rem / den` is compared with `1/2` through
integer arithmetic so the definition reduces in the kernel. -/
def roundHalfEven (q : ℚ) : ℤ :=
  let d : ℤ := (q.den : ℤ)
  let f : ℤ := q.num.fdiv d
  let rem : ℤ := q.num - f * d
  if 2 * rem < d then f
  else if d < 2 * rem then f + 1
  else if f % 2 = 0 then f else f + 1

/-- Python's `round(x, 2)`: round to the nearest multiple of `1/100`,
ties to even. -/
def pyRound2 (q : ℚ) : ℚ := (roundHalfEven (q * 100) : ℚ) / 100

/-- `schemas.Product`: title, optional description, price, category,
optional image URL, in-stock flag. -/
structure Product where
  title : String
  description : Option String
  price : ℚ
  category : String
  image : Option String
  in_stock : Bool
deriving DecidableEq, Repr

/-- `schemas.OrderItem`: product id, title snapshot, unit price snapshot,
quantity. -/
structure OrderItem where
  product_id : String
  title : String
  price : ℚ
  quantity : ℤ
deriving DecidableEq, Repr

/-- `schemas.ShippingInfo`. -/
structure ShippingInfo where
  name : String
  email : String
  address : String
  city : String
  country : String
  postal_code : String
deriving DecidableEq, Repr

/-- `schemas.Order`: the request-body model for `POST /orders`, after
validation. -/
structure Order where
  items : List OrderItem
  shipping : ShippingInfo
  subtotal : ℚ
  tax : ℚ
  total : ℚ
  status : String
deriving DecidableEq, Repr

/-- The body of the `POST /orders` response, apart from the generated id. -/
structure OrderResponse where
  subtotal : ℚ
  tax : ℚ
  total : ℚ
  status : String
deriving DecidableEq, Repr

/-- `main.create_order`, the order-total calculation and the document it
stores: `subtotal = sum(item.price * item.quantity)` unrounded,
`tax = round(subtotal * 0.1, 2)`, `total = round(subtotal + tax, 2)`;
the stored document is `order.model_dump()` updated with the rounded
subtotal, tax, total and status `"pending"`, and the response carries
the same four computed fields. -/
def create_order (order : Order) : OrderResponse × Order :=
  let subtotal : ℚ := (order.items.map (fun item => item.price * (item.quantity : ℚ))).sum
  let tax : ℚ := pyRound2 (subtotal * 0.1)
  let total : ℚ := pyRound2 (subtotal + tax)
  ({ subtotal := pyRound2 subtotal, tax := tax, total := total, status := "pending" },
   { order with subtotal := pyRound2 subtotal, tax := tax, total := total,
                status := "pending" })

/-- The spec's `Σ(price × quantity)` over all items, the unrounded
intermediate subtotal of §4.1 of the design description. -/
def specSubtotal (items : List OrderItem) : ℚ :=
  (items.map (fun i => i.price * (i.quantity : ℚ))).sum

/-- The body of the `POST /seed` response. -/
structure SeedResponse where
  message : String
  count : ℕ
deriving DecidableEq, Repr

/-- The four fixed sample products of `main.seed_products`. -/
def sampleProducts : List Product :=
  [⟨"Classic Tee", some "Soft cotton tee", 19.99, "Apparel",
    some "https://images.unsplash.com/photo-1521572163474-6864f9cf17ab", true⟩,
   ⟨"Ceramic Mug", some "Matte finish, 350ml", 12.5, "Home",
    some "https://images.unsplash.com/photo-1503602642458-232111445657", true⟩,
   ⟨"Leather Journal", some "A5 dotted pages", 24.0, "Stationery",
    some "https://images.unsplash.com/photo-1519682337058-a94d519337bc", true⟩,
   ⟨"Desk Lamp", some "Warm LED with dimmer", 39.0, "Home",
    some "https://images.unsplash.com/photo-1509228627152-72ae9ae6848d", true⟩]

/-- `main.seed_products`: 500 when the database is not configured;
otherwise, when the product collection already holds documents, change
nothing and report the existing count, else insert the four samples
(via `create_document`, which appends them) and report their number. -/
def seed_products (db : Option (List Product)) :
    Except ℕ (List Product × SeedResponse) :=
  match db with
  | none => .error 500
  | some coll =>
    if coll.length > 0 then .ok (coll, ⟨"Products already exist", coll.length⟩)
    else .ok (coll ++ sampleProducts, ⟨"Seeded", sampleProducts.length⟩)

/-- Modelled from the spec: `get_documents` lives in `database.py`, which
is not among the source files; §4.2 describes it as querying a named
collection with an equality filter and returning the matching documents
as an ordered sequence, and §7 classifies an unavailable database as a
configuration error surfacing as 500.  The filter is either empty
(`none`) or an equality constraint on `category`. -/
def get_documents (db : Option (List Product)) (filt : Option String) :
    Except ℕ (List Product) :=
  match db with
  | none => .error 500
  | some coll =>
    match filt with
    | none => .ok coll
    | some c => .ok (coll.filter (fun p => p.category == c))

/-- `main.list_products`: `filt = {"category": category} if category else {}`,
so the filter is dropped both for an absent category and for the empty
string (Python truthiness), then `get_documents("product", filt)`. -/
def list_products (db : Option (List Product)) (category : Option String) :
    Except ℕ (List Product) :=
  let filt : Option String :=
    match category with
    | none => none
    | some c => if c = "" then none else some c
  get_documents db filt

/-- A hexadecimal digit. -/
def isHexChar (c : Char) : Bool :=
  c.isDigit || (decide ('a' ≤ c) && decide (c ≤ 'f'))
    || (decide ('A' ≤ c) && decide (c ≤ 'F'))

/-- Modelled from the spec: `bson.ObjectId` is an external library; a
well-formed identifier string is 24 hexadecimal characters, and the
constructor raises on anything else ("malformed identifier", §7). -/
def validObjectId (s : String) : Bool :=
  s.length == 24 && s.toList.all isHexChar

/-- `main.get_product`: 500 when the database is not configured; 400 when
`ObjectId(product_id)` raises (malformed identifier); 404 when
`find_one` returns no document; otherwise the stored product. -/
def get_product (db : Option (List (String × Product))) (product_id : String) :
    Except ℕ Product :=
  match db with
  | none => .error 500
  | some coll =>
    if validObjectId product_id then
      match coll.lookup product_id with
      | none => .error 404
      | some p => .ok p
    else .error 400

/-- A `POST /orders` request body before validation: pydantic makes
`items` and `shipping` mandatory, `subtotal`, `tax`, `total` mandatory
with `ge=0`, and `status` optional with default `"pending"`. -/
structure RawOrder where
  items : List OrderItem
  shipping : ShippingInfo
  subtotal : Option ℚ
  tax : Option ℚ
  total : Option ℚ
  status : Option String
deriving DecidableEq, Repr

/-- Framework-level validation of the `Order` request body
(`schemas.Order` field constraints): `subtotal`, `tax`, `total` must be
present and nonnegative, each item needs `price ≥ 0` and `quantity ≥ 1`,
and a missing `status` defaults to `"pending"`.  `none` is the 422
rejection. -/
def validateOrder (r : RawOrder) : Option Order :=
  match r.subtotal, r.tax, r.total with
  | some s, some t, some tot =>
    if (∀ i ∈ r.items, 0 ≤ i.price ∧ 1 ≤ i.quantity) ∧ 0 ≤ s ∧ 0 ≤ t ∧ 0 ≤ tot then
      some ⟨r.items, r.shipping, s, t, tot, r.status.getD "pending"⟩
    else none
  | _, _, _ => none

/-- Modelled from the spec: `create_document` lives in `database.py`,
which is not among the source files; §4.2 describes it as inserting a
document into a named collection, and §7 classifies an unavailable
database as a configuration error surfacing as 500. -/
def create_document (db : Option (List Order)) (doc : Order) :
    Except ℕ (List Order) :=
  match db with
  | none => .error 500
  | some docs => .ok (docs ++ [doc])

/-- The whole `POST /orders` endpoint: framework validation of the body
(422 on failure), then `main.create_order`, which computes the totals and
stores the document. -/
def post_orders (db : Option (List Order)) (r : RawOrder) :
    Except ℕ (OrderResponse × List Order) :=
  match validateOrder r with
  | none => .error 422
  | some order =>
    match create_document db (create_order order).2 with
    | .error e => .error e
    | .ok docs => .ok ((create_order order).1, docs)

/-- Shipping data used by concrete witnesses. -/
def demoShipping : ShippingInfo :=
  ⟨"Ada", "ada@example.com", "1 Main St", "Springfield", "US", "12345"⟩

end Backend

namespace Backend

/-- A seeded product, used as a concrete collection entry by witnesses. -/
def teeW : Product := ⟨"Classic Tee", some "Soft cotton tee", 19.99, "Apparel", none, true⟩

/-- A product in category `"Home"`, used by concrete witnesses. -/
def mugW : Product := ⟨"Ceramic Mug", some "Matte mug", 12.5, "Home", none, true⟩

/-- A well-formed store identifier (24 hexadecimal characters). -/
def demoOid : String := "0123456789abcdef01234567"

/-- A one-product collection keyed by `demoOid`. -/
def demoProductColl : List (String × Product) := [(demoOid, teeW)]

/-- The worked example of §8: items `[(19.99, 2), (12.50, 1)]`. -/
def exampleOrder : Order :=
  ⟨[⟨"p1", "Classic Tee", 19.99, 2⟩, ⟨"p2", "Ceramic Mug", 12.50, 1⟩],
   demoShipping, 0, 0, 0, "pending"⟩

/-- A one-item order with price `9.949`, on which rounding the subtotal
before computing the tax changes the tax. -/
def cexOrder : Order := ⟨[⟨"p1", "Widget", 9.949, 1⟩], demoShipping, 0, 0, 0, "pending"⟩

/-- Same items as `witOrderB`, different client-supplied totals and status. -/
def witOrderA : Order :=
  ⟨[⟨"p1", "Classic Tee", 19.99, 2⟩], demoShipping, 999, 999, 999, "shipped"⟩

/-- Same items as `witOrderA`, different client-supplied totals and status. -/
def witOrderB : Order :=
  ⟨[⟨"p1", "Classic Tee", 19.99, 2⟩], demoShipping, 0, 0, 0, "cancelled"⟩

/-- A request body that passes validation. -/
def rawValid : RawOrder :=
  ⟨[⟨"p1", "Classic Tee", 19.99, 1⟩], demoShipping, some 1, some 2, some 3, none⟩

/-- The order `rawValid` validates to. -/
def orderValid : Order :=
  ⟨[⟨"p1", "Classic Tee", 19.99, 1⟩], demoShipping, 1, 2, 3, "pending"⟩

/-- A valid request body whose item list is empty. -/
def rawEmptyItems : RawOrder := ⟨[], demoShipping, some 5, some 1, some 99, some "paid"⟩

/-- A request body with the mandatory `subtotal` field missing. -/
def rawMissing : RawOrder := ⟨[], demoShipping, none, some 1, some 2, none⟩

/-- Claim C1: for every order, the calculator's subtotal is the unrounded
sum of `price × quantity`, the tax is `round(subtotal × 0.1, 2)` taken
from that unrounded subtotal, the total is `round(subtotal + tax, 2)`,
and the subtotal is rounded to two decimals only in the response and in
the stored document. -/
theorem create_order_totals (o : Order) :
    (create_order o).1.subtotal = pyRound2 (specSubtotal o.items) ∧
    (create_order o).1.tax = pyRound2 (specSubtotal o.items * 0.1) ∧
    (create_order o).1.total =
      pyRound2 (specSubtotal o.items + pyRound2 (specSubtotal o.items * 0.1)) ∧
    (create_order o).2.subtotal = pyRound2 (specSubtotal o.items) ∧
    (create_order o).2.tax = (create_order o).1.tax ∧
    (create_order o).2.total = (create_order o).1.total :=
  ⟨rfl, rfl, rfl, rfl, rfl, rfl⟩

/-- Claim C2: two request bodies with identical items produce identical
server-computed subtotal, tax, total — returned and stored — and both
get status `"pending"`, whatever subtotal, tax, total or status the
client supplied. -/
theorem create_order_ignores_client_fields (o₁ o₂ : Order) (h : o₁.items = o₂.items) :
    (create_order o₁).1 = (create_order o₂).1 ∧
    (create_order o₁).2.subtotal = (create_order o₂).2.subtotal ∧
    (create_order o₁).2.tax = (create_order o₂).2.tax ∧
    (create_order o₁).2.total = (create_order o₂).2.total ∧
    (create_order o₁).2.status = "pending" ∧
    (create_order o₂).2.status = "pending" ∧
    (create_order o₁).1.status = "pending" := by
  simp [create_order, h]

/-- Witness for C2 at two concrete orders sharing items but differing in
every client-supplied computed field. -/
theorem create_order_ignores_client_fields_wit :
    (create_order witOrderA).1 = (create_order witOrderB).1 ∧
    (create_order witOrderA).2.subtotal = (create_order witOrderB).2.subtotal ∧
    (create_order witOrderA).2.tax = (create_order witOrderB).2.tax ∧
    (create_order witOrderA).2.total = (create_order witOrderB).2.total ∧
    (create_order witOrderA).2.status = "pending" ∧
    (create_order witOrderB).2.status = "pending" ∧
    (create_order witOrderA).1.status = "pending" :=
  create_order_ignores_client_fields witOrderA witOrderB rfl

/-- Claim C3, counterexample: on the one-item order with price `9.949`
the code's tax (0.99, from the unrounded subtotal) differs from
`round(round(subtotal, 2) × 0.1, 2)` (1.00, from the rounded subtotal),
so tax is not derived from the already-rounded subtotal. -/
theorem tax_uses_unrounded_subtotal_cex :
    (create_order cexOrder).1.tax ≠
      pyRound2 (pyRound2 (specSubtotal cexOrder.items) * 0.1) := by
  with_unfolding_all decide

/-- Claim C3 as amended: tax and total are rounded to two decimals at
each derived step, but both are derived from the unrounded subtotal —
`tax = round(s × 0.1, 2)`, `total = round(s + tax, 2)` with
`s = Σ(price × quantity)` unrounded — and the subtotal itself is rounded
only for output. -/
theorem create_order_rounding_structure (o : Order) :
    (create_order o).1.tax = pyRound2 (specSubtotal o.items * 0.1) ∧
    (create_order o).1.total = pyRound2 (specSubtotal o.items + (create_order o).1.tax) ∧
    (create_order o).1.subtotal = pyRound2 (specSubtotal o.items) :=
  ⟨rfl, rfl, rfl⟩

/-- Claim C4: seeding an empty product collection inserts exactly the
four fixed samples and reports count 4; seeding a non-empty collection
changes nothing and reports the existing count; hence a second seed call
never duplicates. -/
theorem seed_products_idempotent (coll : List Product) :
    seed_products (some []) = .ok (sampleProducts, ⟨"Seeded", 4⟩) ∧
    (coll ≠ [] →
      seed_products (some coll) = .ok (coll, ⟨"Products already exist", coll.length⟩)) ∧
    (∀ s r, seed_products (some coll) = .ok (s, r) →
      seed_products (some s) = .ok (s, ⟨"Products already exist", s.length⟩)) := by
  refine ⟨rfl, fun h => ?_, fun s r hsr => ?_⟩
  · cases coll with
    | nil => exact absurd rfl h
    | cons c cs => simp [seed_products]
  · cases coll with
    | nil =>
      simp [seed_products] at hsr
      obtain ⟨hs, -⟩ := hsr
      subst hs
      simp [seed_products, sampleProducts]
    | cons c cs =>
      simp [seed_products] at hsr
      obtain ⟨hs, -⟩ := hsr
      subst hs
      simp [seed_products]

/-- Witness for C4: a non-empty collection is left unchanged, and the
collection produced by seeding the empty one is not re-seeded. -/
theorem seed_products_idempotent_wit :
    seed_products (some [teeW]) = .ok ([teeW], ⟨"Products already exist", 1⟩) ∧
    seed_products (some sampleProducts) =
      .ok (sampleProducts, ⟨"Products already exist", sampleProducts.length⟩) :=
  ⟨(seed_products_idempotent [teeW]).2.1 (by decide),
   (seed_products_idempotent []).2.2 sampleProducts ⟨"Seeded", 4⟩
     (seed_products_idempotent []).1⟩

/-- Claim C5: with the database configured, a malformed identifier gives
400, a well-formed but absent identifier gives 404, and an existing
identifier returns the stored product. -/
theorem get_product_spec (coll : List (String × Product)) (pid : String) :
    (validObjectId pid = false → get_product (some coll) pid = .error 400) ∧
    (validObjectId pid = true → coll.lookup pid = none →
      get_product (some coll) pid = .error 404) ∧
    (∀ p, validObjectId pid = true → coll.lookup pid = some p →
      get_product (some coll) pid = .ok p) := by
  refine ⟨fun h => ?_, fun hv hl => ?_, fun p hv hl => ?_⟩ <;> simp [get_product, *]

/-- Witness for C5: a malformed id, a well-formed absent id, and the
stored id, against a concrete one-product collection. -/
theorem get_product_spec_wit :
    get_product (some demoProductColl) "zz" = .error 400 ∧
    get_product (some demoProductColl) "aaaaaaaaaaaaaaaaaaaaaaaa" = .error 404 ∧
    get_product (some demoProductColl) demoOid = .ok teeW :=
  ⟨(get_product_spec demoProductColl "zz").1 (by decide),
   (get_product_spec demoProductColl "aaaaaaaaaaaaaaaaaaaaaaaa").2.1 (by decide)
     (by with_unfolding_all rfl),
   (get_product_spec demoProductColl demoOid).2.2 teeW (by decide)
     (by with_unfolding_all rfl)⟩

/-- Claim C6: with the database unavailable, `POST /seed`,
`GET /products`, `GET /products/{id}` and `POST /orders` (on a body that
passes validation) all fail with 500. -/
theorem db_unavailable_500 (category : Option String) (pid : String)
    (r : RawOrder) (o : Order) (h : validateOrder r = some o) :
    seed_products none = .error 500 ∧
    list_products none category = .error 500 ∧
    get_product none pid = .error 500 ∧
    post_orders none r = .error 500 := by
  refine ⟨rfl, rfl, rfl, ?_⟩
  simp [post_orders, h, create_document]

/-- Witness for C6 at concrete category, identifier and a valid body. -/
theorem db_unavailable_500_wit :
    seed_products none = .error 500 ∧
    list_products none (some "Home") = .error 500 ∧
    get_product none "zz" = .error 500 ∧
    post_orders none rawValid = .error 500 :=
  db_unavailable_500 (some "Home") "zz" rawValid orderValid (by with_unfolding_all rfl)

/-- Claim C7: on items `[(19.99, 2), (12.50, 1)]` the calculator returns
subtotal 52.48, tax 5.25, total 57.73. -/
theorem order_example_totals :
    (create_order exampleOrder).1 = ⟨52.48, 5.25, 57.73, "pending"⟩ := by
  with_unfolding_all rfl

/-- Claim C8: an order with an empty item list is accepted — it passes
validation and is stored — with subtotal, tax and total all 0 and status
`"pending"`. -/
theorem empty_items_order :
    post_orders (some []) rawEmptyItems =
      .ok (⟨0, 0, 0, "pending"⟩, [⟨[], demoShipping, 0, 0, 0, "pending"⟩]) := by
  with_unfolding_all rfl

/-- Claim C9, counterexample: with the empty-string category parameter
the endpoint returns a product whose category is `"Home"`, not the
products whose category equals the parameter — Python's truthiness test
drops the filter for `""`. -/
theorem empty_category_filter_cex :
    list_products (some [mugW]) (some "") = .ok [mugW] ∧ mugW.category ≠ "" :=
  ⟨by with_unfolding_all rfl, by decide⟩

/-- Claim C9 as amended: with no category parameter, or with the empty
string (dropped by Python truthiness), all products are returned; with a
non-empty category the result is exactly the products whose category
equals it — the empty list, not an error, when nothing matches. -/
theorem list_products_spec (coll : List Product) (c : String) (h : c ≠ "") :
    list_products (some coll) none = .ok coll ∧
    list_products (some coll) (some c) = .ok (coll.filter (fun p => p.category == c)) ∧
    list_products (some coll) (some "") = .ok coll := by
  refine ⟨rfl, ?_, rfl⟩
  simp [list_products, get_documents, h]

/-- Witness for C9 (amended) at a concrete two-product collection and
the category `"Home"`. -/
theorem list_products_spec_wit :
    list_products (some [teeW, mugW]) none = .ok [teeW, mugW] ∧
    list_products (some [teeW, mugW]) (some "Home") =
      .ok ([teeW, mugW].filter (fun p => p.category == "Home")) ∧
    list_products (some [teeW, mugW]) (some "") = .ok [teeW, mugW] :=
  list_products_spec [teeW, mugW] "Home" (by decide)

/-- Inversion for `validateOrder`: a validated order took its three
monetary fields from the request, and they are nonnegative. -/
theorem validateOrder_some (r : RawOrder) (o : Order) (h : validateOrder r = some o) :
    r.subtotal = some o.subtotal ∧ r.tax = some o.tax ∧ r.total = some o.total ∧
    0 ≤ o.subtotal ∧ 0 ≤ o.tax ∧ 0 ≤ o.total := by
  unfold validateOrder at h
  split at h
  next s t tot heq1 heq2 heq3 =>
    split at h
    next hc =>
      obtain ⟨-, hs, ht, htot⟩ := hc
      injection h with h
      subst h
      exact ⟨heq1, heq2, heq3, hs, ht, htot⟩
    next => exact absurd h (by simp)
  next => exact absurd h (by simp)

/-- Claim C10: a request body missing `subtotal`, `tax` or `total`, or
supplying a negative value for one of them, fails validation and is
rejected with the framework's 422 before any order is computed or
stored, whatever the database state. -/
theorem order_body_validation (r : RawOrder)
    (h : r.subtotal = none ∨ r.tax = none ∨ r.total = none ∨
      (∃ v, r.subtotal = some v ∧ v < 0) ∨ (∃ v, r.tax = some v ∧ v < 0) ∨
      (∃ v, r.total = some v ∧ v < 0)) :
    validateOrder r = none ∧ ∀ db, post_orders db r = .error 422 := by
  have hnone : validateOrder r = none := by
    cases hv : validateOrder r with
    | none => rfl
    | some o =>
      obtain ⟨h1, h2, h3, h4, h5, h6⟩ := validateOrder_some r o hv
      rcases h with h | h | h | ⟨v, he, hneg⟩ | ⟨v, he, hneg⟩ | ⟨v, he, hneg⟩
      · rw [h] at h1; exact Option.noConfusion h1
      · rw [h] at h2; exact Option.noConfusion h2
      · rw [h] at h3; exact Option.noConfusion h3
      · rw [he] at h1; injection h1 with hv2
        exact absurd h4 (by rw [← hv2]; exact not_le.mpr hneg)
      · rw [he] at h2; injection h2 with hv2
        exact absurd h5 (by rw [← hv2]; exact not_le.mpr hneg)
      · rw [he] at h3; injection h3 with hv2
        exact absurd h6 (by rw [← hv2]; exact not_le.mpr hneg)
  exact ⟨hnone, fun db => by simp [post_orders, hnone]⟩

/-- Witness for C10 at a body with `subtotal` missing: validation fails
and the endpoint answers 422. -/
theorem order_body_validation_wit :
    validateOrder rawMissing = none ∧ post_orders (some []) rawMissing = .error 422 :=
  ⟨(order_body_validation rawMissing (Or.inl rfl)).1,
   (order_body_validation rawMissing (Or.inl rfl)).2 (some [])⟩

end Backend
